import Mathlib

/-!
Verification of the trigger-matching core of the memory-lancedb plugin.

The embedding models JS strings as lists of Unicode code points
(`List Char`).  Regular expressions are embedded as a small AST `Regex`
covering exactly the constructs that appear in the trigger catalog of
`src/extensions/memory-lancedb/triggers.ts`: literal characters (with the
case-insensitive `i` flag modelled by canonicalising both sides), the
character classes `\w`, `\d`, `\s`, `.` and bracket classes, alternation,
optional groups, `*`, `+` and counted repetition over single-character
classes, and the ASCII word boundary `\b`.  `RegExp.prototype.test`
(does the pattern match anywhere in the string?) is embedded as `reTest`.
-/

namespace OpenClaw

/-- JS (non-unicode-mode) word character: `[A-Za-z0-9_]`, the class behind
`\w` and the word boundary `\b`. -/
def isWordChar (c : Char) : Bool :=
  (0x41 ≤ c.toNat && c.toNat ≤ 0x5A) || (0x61 ≤ c.toNat && c.toNat ≤ 0x7A) ||
  (0x30 ≤ c.toNat && c.toNat ≤ 0x39) || c.toNat == 0x5F

/-- JS `\d`: `[0-9]`. -/
def isDigitChar (c : Char) : Bool := 0x30 ≤ c.toNat && c.toNat ≤ 0x39

/-- JS `\s`: whitespace and line terminators. -/
def isSpaceChar (c : Char) : Bool :=
  let n := c.toNat
  n == 0x20 || n == 0x9 || n == 0xA || n == 0xB || n == 0xC || n == 0xD ||
  n == 0xA0 || n == 0x1680 || (0x2000 ≤ n && n ≤ 0x200A) ||
  n == 0x2028 || n == 0x2029 || n == 0x202F || n == 0x205F || n == 0x3000 || n == 0xFEFF

/-- JS line terminators, excluded by `.` outside dotAll mode. -/
def isLineTerm (c : Char) : Bool :=
  c.toNat == 0xA || c.toNat == 0xD || c.toNat == 0x2028 || c.toNat == 0x2029

/-- Case canonicalisation used for the `i` flag: map an upper-case letter of
the scripts appearing in the catalog (ASCII, Latin-1, Latin Extended-A,
Cyrillic and its extensions) to its lower-case partner. -/
def canon (c : Char) : Char :=
  let n := c.toNat
  if 0x41 ≤ n && n ≤ 0x5A then Char.ofNat (n + 0x20)
  else if 0xC0 ≤ n && n ≤ 0xDE && n != 0xD7 then Char.ofNat (n + 0x20)
  else if 0x410 ≤ n && n ≤ 0x42F then Char.ofNat (n + 0x20)
  else if 0x400 ≤ n && n ≤ 0x40F then Char.ofNat (n + 0x50)
  else if ((0x100 ≤ n && n ≤ 0x137) || (0x14A ≤ n && n ≤ 0x177)) && n % 2 == 0 then Char.ofNat (n + 1)
  else if ((0x139 ≤ n && n ≤ 0x148) || (0x179 ≤ n && n ≤ 0x17E)) && n % 2 == 1 then Char.ofNat (n + 1)
  else if ((0x460 ≤ n && n ≤ 0x481) || (0x48A ≤ n && n ≤ 0x4BF) || (0x4D0 ≤ n && n ≤ 0x52F))
          && n % 2 == 0 then Char.ofNat (n + 1)
  else if (0x4C1 ≤ n && n ≤ 0x4CD) && n % 2 == 1 then Char.ofNat (n + 1)
  else c

/-- A single-character pattern: a bracket class or one of the builtin
classes.  `liti` stores the canonical (lower-case) character of a literal
under the `i` flag; `lit` is an exact literal (patterns without `i`). -/
inductive CC where
  | lit (c : Char)
  | liti (c : Char)
  | word
  | digit
  | space
  | dot
  | oneOf (cs : List Char)
  | oneOfI (cs : List Char)
  | union (a b : CC)
deriving Repr, DecidableEq

def ccMatch : CC → Char → Bool
  | .lit a, c => c == a
  | .liti a, c => canon c == a
  | .word, c => isWordChar c
  | .digit, c => isDigitChar c
  | .space, c => isSpaceChar c
  | .dot, c => !isLineTerm c
  | .oneOf cs, c => cs.contains c
  | .oneOfI cs, c => cs.contains (canon c)
  | .union a b, c => ccMatch a c || ccMatch b c

/-- Regular-expression AST: the constructs used by the trigger catalog.
Repetition (`starC`, `repGe`, `repRange`, `repEq`) is over single-character
classes, which is the only shape the catalog uses (`.*`, `[\w.-]+`,
`\d{1,4}`, `\d{3}`, `\w{2,}`). -/
inductive Regex where
  | eps
  | cls (c : CC)
  | seq (a b : Regex)
  | alt (a b : Regex)
  | opt (a : Regex)
  | starC (c : CC)
  | repGe (c : CC) (n : Nat)
  | repRange (c : CC) (lo hi : Nat)
  | repEq (c : CC) (n : Nat)
  | wb
deriving Repr, DecidableEq

/-- Is the JS word boundary `\b` satisfied between the previous character
(`none` at the start of the string) and the rest of the input? -/
def isWordOpt : Option Char → Bool
  | none => false
  | some c => isWordChar c

def atBoundary (prev : Option Char) (s : List Char) : Bool :=
  isWordOpt prev != isWordOpt s.head?

/-- Match `c*` before running the continuation `k`; tries every number of
repetitions (existential semantics of backtracking). -/
def starMatch (c : CC) (k : Option Char → List Char → Bool) :
    Option Char → List Char → Bool
  | p, [] => k p []
  | p, x :: xs => k p (x :: xs) || (ccMatch c x && starMatch c k (some x) xs)

/-- Match exactly `n` repetitions of `c`, then the continuation. -/
def repMatch (c : CC) : Nat → (Option Char → List Char → Bool) →
    Option Char → List Char → Bool
  | 0, k, p, s => k p s
  | _ + 1, _, _, [] => false
  | n + 1, k, _, x :: xs => ccMatch c x && repMatch c n k (some x) xs

/-- Match at most `n` repetitions of `c`, then the continuation. -/
def upToMatch (c : CC) : Nat → (Option Char → List Char → Bool) →
    Option Char → List Char → Bool
  | 0, k, p, s => k p s
  | n + 1, k, p, s =>
    k p s || (match s with
      | [] => false
      | x :: xs => ccMatch c x && upToMatch c n k (some x) xs)

/-- Continuation-passing matcher: does `r` match a prefix of `s` (with `p`
the character just before `s`, for `\b`) such that the continuation `k`
accepts the remainder? -/
def mre : Regex → (Option Char → List Char → Bool) →
    Option Char → List Char → Bool
  | .eps, k, p, s => k p s
  | .cls c, k, _, s =>
    (match s with
      | [] => false
      | x :: xs => ccMatch c x && k (some x) xs)
  | .seq a b, k, p, s => mre a (fun p2 s2 => mre b k p2 s2) p s
  | .alt a b, k, p, s => mre a k p s || mre b k p s
  | .opt a, k, p, s => mre a k p s || k p s
  | .starC c, k, p, s => starMatch c k p s
  | .repGe c n, k, p, s => repMatch c n (fun p2 s2 => starMatch c k p2 s2) p s
  | .repRange c lo hi, k, p, s => repMatch c lo (fun p2 s2 => upToMatch c (hi - lo) k p2 s2) p s
  | .repEq c n, k, p, s => repMatch c n k p s
  | .wb, k, p, s => atBoundary p s && k p s

/-- Does `r` match starting at some position of the remaining input? -/
def testFrom (r : Regex) : Option Char → List Char → Bool
  | p, [] => mre r (fun _ _ => true) p []
  | p, x :: xs => mre r (fun _ _ => true) p (x :: xs) || testFrom r (some x) xs

/-- Embedding of `RegExp.prototype.test`: does `r` match anywhere in `s`? -/
def reTest (r : Regex) (s : List Char) : Bool := testFrom r none s

/-! Combinators used to transcribe the catalog's regex literals. -/

/-- Sequence of a list of regexes. -/
def cat : List Regex → Regex
  | [] => .eps
  | [r] => r
  | r :: rs => .seq r (cat rs)

/-- Alternation `(a|b|…)`. -/
def alts : List Regex → Regex
  | [] => .eps
  | [r] => r
  | r :: rs => .alt r (alts rs)

/-- Case-insensitive literal string (the `i` flag). -/
def li (s : String) : Regex := cat (s.toList.map fun c => Regex.cls (CC.liti (canon c)))

/-- Case-sensitive literal string (patterns without the `i` flag). -/
def lx (s : String) : Regex := cat (s.toList.map fun c => Regex.cls (CC.lit c))

/-- Optional case-insensitive character, e.g. `u?` in `favou?rite`. -/
def optc (c : Char) : Regex := .opt (.cls (.liti (canon c)))

/-- The apostrophe class `['']?`'s single character (both entries of the
class are the ASCII apostrophe in the source), and `'?`. -/
def ap : Regex := .cls (.lit '\'')

/-- Word boundary `\b`. -/
def wb : Regex := .wb

/-- `[\w.-]` (email pattern). -/
def wdd : CC := .union .word (.oneOf ['.', '-'])

/-- `[\s\-\(]` (phone patterns). -/
def sdp : CC := .union .space (.oneOf ['-', '('])

/-- `[\s\-]` (phone patterns). -/
def sd : CC := .union .space (.oneOf ['-'])

/-! ## The trigger catalog (triggers.ts)

Each `TriggerPattern` below transcribes one entry of the catalog, in
declaration order.  The language code `by` is spelled `by_` because `by`
is a keyword of the host language. -/

/-- `TriggerCategory` of triggers.ts. -/
inductive TriggerCategory where
  | remember
  | preference
  | decision
  | identity
  | fact
  | importance
deriving Repr, DecidableEq

/-- `LanguageCode` of triggers.ts: the eleven supported languages and the
language-agnostic `common` tag. -/
inductive LanguageCode where
  | en
  | uk
  | ru
  | by_
  | kk
  | cz
  | fr
  | es
  | it
  | pt
  | de
  | common
deriving Repr, DecidableEq

/-- `SUPPORTED_LANGUAGES` of triggers.ts. -/
def SUPPORTED_LANGUAGES : List LanguageCode :=
  [.en, .uk, .ru, .by_, .kk, .cz, .fr, .es, .it, .pt, .de]

/-- `TriggerPattern` of triggers.ts: pattern, category, language and an
optional weight (default 1). -/
structure TriggerPattern where
  pattern : Regex
  category : TriggerCategory
  lang : LanguageCode
  weight : Option Nat := none
deriving Repr, DecidableEq

/-- Catalog entry of weight 1 (the `weight` field absent). -/
def tp (p : Regex) (c : TriggerCategory) (l : LanguageCode) : TriggerPattern :=
  ⟨p, c, l, none⟩

/-- Catalog entry with an explicit weight. -/
def tpw (p : Regex) (c : TriggerCategory) (l : LanguageCode) (w : Nat) : TriggerPattern :=
  ⟨p, c, l, some w⟩

/-- `REMEMBER_TRIGGERS`: explicit memory commands. -/
def REMEMBER_TRIGGERS : List TriggerPattern := [
  -- English
  tpw (cat [wb, li "remember", wb]) .remember .en 2,
  tpw (cat [wb, li "don", .opt ap, li "t forget", wb]) .remember .en 2,
  tpw (cat [wb, li "keep in mind", wb]) .remember .en 2,
  tp (cat [wb, li "note that", wb]) .remember .en,
  tp (cat [wb, li "for ", .opt (li "the "), li "future", wb]) .remember .en,
  -- Russian
  tpw (li "запомни") .remember .ru 2,
  tpw (li "не забудь") .remember .ru 2,
  tpw (li "помни") .remember .ru 2,
  tpw (li "учти") .remember .ru 2,
  tpw (li "заруби на носу") .remember .ru 2,
  tp (li "выучи") .remember .ru,
  tp (li "запиши") .remember .ru,
  tp (li "на будущее") .remember .ru,
  tp (li "имей в виду") .remember .ru,
  -- Ukrainian
  tpw (cat [li "запам", .opt ap, li "ятай"]) .remember .uk 2,
  tpw (cat [li "пам", .opt ap, li "ятай"]) .remember .uk 2,
  -- Belarusian
  tpw (li "запомні") .remember .by_ 2,
  tpw (li "не забудзь") .remember .by_ 2,
  tpw (li "памятай") .remember .by_ 2,
  -- Kazakh
  tpw (li "есте сақта") .remember .kk 2,
  tpw (li "ұмытпа") .remember .kk 2,
  tp (cat [li "жаз", .opt (li "ып қой")]) .remember .kk,
  tp (li "ескер") .remember .kk,
  -- Czech
  tpw (cat [wb, li "zapamatuj si", wb]) .remember .cz 2,
  tpw (cat [wb, li "pamatuj", wb]) .remember .cz 2,
  tpw (cat [wb, li "nezapomeň", wb]) .remember .cz 2,
  -- French
  tpw (cat [wb, li "souviens", .cls (.oneOf ['-', ' ']), li "toi", wb]) .remember .fr 2,
  tpw (cat [wb, li "n", .opt ap, li "oublie pas", wb]) .remember .fr 2,
  tpw (cat [wb, li "retiens", wb]) .remember .fr 2,
  tp (cat [wb, li "note que", wb]) .remember .fr,
  -- Spanish
  tpw (cat [wb, li "recuerda", wb]) .remember .es 2,
  tpw (cat [wb, li "no olvides", wb]) .remember .es 2,
  tp (cat [wb, li "ten en cuenta", wb]) .remember .es,
  tp (cat [wb, li "apunta", wb]) .remember .es,
  -- Italian
  tpw (cat [wb, li "ricorda", .opt (li "ti"), wb]) .remember .it 2,
  tpw (cat [wb, li "non dimenticare", wb]) .remember .it 2,
  tp (cat [wb, li "tieni a mente", wb]) .remember .it,
  -- Portuguese
  tpw (cat [wb, li "lembra", .cls (.oneOf ['-', ' ']), li "te", wb]) .remember .pt 2,
  tpw (cat [wb, li "não esqueça", optc 's', wb]) .remember .pt 2,
  tp (cat [wb, li "anota", wb]) .remember .pt,
  -- German
  tpw (cat [wb, li "merk dir", wb]) .remember .de 2,
  tpw (cat [wb, li "vergiss nicht", wb]) .remember .de 2,
  tpw (cat [wb, li "denk daran", wb]) .remember .de 2,
  tp (cat [wb, li "beachte", wb]) .remember .de]

/-- `PREFERENCE_TRIGGERS`: likes, dislikes, preferences. -/
def PREFERENCE_TRIGGERS : List TriggerPattern := [
  -- English
  tp (cat [wb, li "i ", alts [li "like", li "love", li "prefer", li "enjoy", li "hate",
        li "dislike", cat [li "can", .opt ap, li "t stand"]], wb]) .preference .en,
  tp (cat [wb, li "my favo", optc 'u', li "rite", wb]) .preference .en,
  tp (cat [wb, li "i", alts [cat [.opt ap, li "m"], li " am"], li " ",
        alts [li "a fan of", li "into", li "fond of"], wb]) .preference .en,
  tp (cat [wb, li "i don", .opt ap, li "t ",
        alts [li "like", li "want", li "need"], wb]) .preference .en,
  -- Russian
  tp (cat [.opt (li "мне "),
        alts [li "нравится", li "люблю", li "предпочитаю", li "обожаю"]]) .preference .ru,
  tp (cat [.opt (li "мне "), li "не ", alts [li "нравится", li "люблю"]]) .preference .ru,
  tp (li "ненавижу") .preference .ru,
  tp (li "я хочу") .preference .ru,
  tp (li "я не хочу") .preference .ru,
  tp (cat [li "мо", .cls (.oneOfI ['й', 'я', 'е', 'ё']), li " любим",
        .repGe (.oneOfI ['ы', 'й', 'а', 'я', 'о', 'е']) 1]) .preference .ru,
  tp (li "я фанат") .preference .ru,
  -- Ukrainian
  tp (cat [.opt (li "мені "),
        alts [li "подобається", li "люблю", li "віддаю перевагу"]]) .preference .uk,
  tp (cat [li "не ", alts [li "подобається", li "люблю"]]) .preference .uk,
  tp (li "ненавиджу") .preference .uk,
  -- Belarusian
  tp (cat [.opt (li "мне "),
        alts [li "падабаецца", li "люблю", li "аддаю перавагу"]]) .preference .by_,
  tp (cat [li "не ", alts [li "падабаецца", li "люблю"]]) .preference .by_,
  -- Kazakh
  tp (cat [.opt (li "маған "), alts [li "ұнайды", li "жақсы көремін"]]) .preference .kk,
  tp (li "ұнамайды") .preference .kk,
  tp (li "жек көремін") .preference .kk,
  tp (li "сүйікті") .preference .kk,
  -- Czech
  tp (cat [wb, .opt (li "mám "), li "rád", wb]) .preference .cz,
  tp (cat [wb, li "preferuji", wb]) .preference .cz,
  tp (cat [wb, li "radši", wb]) .preference .cz,
  tp (cat [wb, li "nechci", wb]) .preference .cz,
  -- French
  tp (cat [wb, li "j", .opt ap,
        alts [li "aime", li "adore", li "préfère", li "déteste"], wb]) .preference .fr,
  tp (cat [wb, li "je n", .opt ap, li "aime pas", wb]) .preference .fr,
  tp (cat [wb, li "mon ", alts [li "préféré", li "favori"], wb]) .preference .fr,
  -- Spanish
  tp (cat [wb, li "me ", alts [li "gusta", li "encanta", li "prefiero"], wb]) .preference .es,
  tp (cat [wb, li "no me gusta", wb]) .preference .es,
  tp (cat [wb, li "odio", wb]) .preference .es,
  tp (cat [wb, li "mi favorito", wb]) .preference .es,
  -- Italian
  tp (cat [wb, li "mi ", alts [li "piace", li "piacciono", li "preferisco"], wb]) .preference .it,
  tp (cat [wb, li "non mi piace", wb]) .preference .it,
  tp (cat [wb, li "il mio preferito", wb]) .preference .it,
  -- Portuguese
  tp (cat [wb, .opt (li "eu "), alts [li "gosto", li "adoro", li "prefiro"], wb]) .preference .pt,
  tp (cat [wb, li "não gosto", wb]) .preference .pt,
  tp (cat [wb, li "odeio", wb]) .preference .pt,
  tp (cat [wb, li "meu favorito", wb]) .preference .pt,
  -- German
  tp (cat [wb, li "ich ", alts [li "mag", li "liebe", li "bevorzuge", li "hasse"], wb]) .preference .de,
  tp (cat [wb, li "ich mag nicht", wb]) .preference .de,
  tp (cat [wb, li "mein ", alts [li "lieblings", li "favorit"], wb]) .preference .de]

/-- `DECISION_TRIGGERS`: decisions made. -/
def DECISION_TRIGGERS : List TriggerPattern := [
  -- English
  tp (cat [wb, .opt (alts [li "we ", li "i "]), li "decided", wb]) .decision .en,
  tp (cat [wb, alts [cat [li "we", .opt ap, li "ll"], cat [li "i", .opt ap, li "ll"]],
        li " ", alts [li "use", li "go with", li "choose"], wb]) .decision .en,
  tp (cat [wb, li "let", .opt ap, li "s ",
        alts [li "use", li "go with", li "stick with"], wb]) .decision .en,
  tp (cat [wb, li "from now on", wb]) .decision .en,
  -- Russian
  tp (cat [.opt (li "мы "), li "решили"]) .decision .ru,
  tp (cat [li "будем ", alts [li "использовать", li "применять"]]) .decision .ru,
  tp (cat [li "давай ", alts [li "использовать", li "применять"]]) .decision .ru,
  tp (li "отныне") .decision .ru,
  tp (li "теперь всегда") .decision .ru,
  -- Ukrainian
  tp (cat [.opt (li "ми "), li "вирішили"]) .decision .uk,
  tp (cat [li "будемо ", alts [li "використовувати", li "застосовувати"]]) .decision .uk,
  -- Belarusian
  tp (cat [.opt (li "мы "), li "вырашылі"]) .decision .by_,
  tp (cat [li "будзем ", alts [li "выкарыстоўваць", li "ужываць"]]) .decision .by_,
  -- Kazakh
  tp (cat [.opt (li "біз "), li "шештік"]) .decision .kk,
  tp (li "қолданамыз") .decision .kk,
  tp (li "бастап") .decision .kk,
  -- Czech
  tp (cat [wb, li "rozhodli jsme", wb]) .decision .cz,
  tp (cat [wb, li "budeme používat", wb]) .decision .cz,
  -- French
  tp (cat [wb, .opt (alts [li "on ", li "nous "]), li "a décidé", wb]) .decision .fr,
  tp (cat [wb, li "on va utiliser", wb]) .decision .fr,
  tp (cat [wb, li "désormais", wb]) .decision .fr,
  -- Spanish
  tp (cat [wb, .opt (li "hemos "), li "decidido", wb]) .decision .es,
  tp (cat [wb, li "vamos a usar", wb]) .decision .es,
  tp (cat [wb, li "a partir de ahora", wb]) .decision .es,
  -- Italian
  tp (cat [wb, .opt (li "abbiamo "), li "deciso", wb]) .decision .it,
  tp (cat [wb, li "useremo", wb]) .decision .it,
  tp (cat [wb, li "d", .opt ap, li "ora in poi", wb]) .decision .it,
  -- Portuguese
  tp (cat [wb, .opt (li "nós "), li "decidimos", wb]) .decision .pt,
  tp (cat [wb, li "vamos usar", wb]) .decision .pt,
  tp (cat [wb, li "a partir de agora", wb]) .decision .pt,
  -- German
  tp (cat [wb, li "wir haben ", .opt (li "uns "),
        alts [li "entschieden", li "beschlossen"], wb]) .decision .de,
  tp (cat [wb, li "wir werden ", alts [li "benutzen", li "verwenden"], wb]) .decision .de,
  tp (cat [wb, li "ab jetzt", wb]) .decision .de]

/-- `IDENTITY_TRIGGERS`: personal information.  The four leading `common`
entries (phone and email detection) carry no `i` flag, hence `lx`. -/
def IDENTITY_TRIGGERS : List TriggerPattern := [
  -- Common patterns (phone, email) - language-agnostic
  tpw (cat [lx "+", .repRange .digit 1 4, .cls sdp, .cls .digit]) .identity .common 2,
  tpw (cat [wb, lx "8", .cls sdp, .repEq .digit 3]) .identity .common 2,
  tpw (cat [wb, .repEq .digit 3, .cls sd, .repEq .digit 3, .cls sd, .cls .digit])
      .identity .common 2,
  tpw (cat [.repGe wdd 1, lx "@", .repGe wdd 1, lx ".", .repGe .word 2]) .identity .common 2,
  -- English
  tpw (cat [wb, li "my name is", wb]) .identity .en 2,
  tp (cat [wb, li "i", alts [cat [.opt ap, li "m"], li " am"], li " called", wb]) .identity .en,
  tp (cat [wb, li "call me", wb]) .identity .en,
  tp (cat [wb, li "my ", alts [li "phone", li "email", li "address", li "birthday"], wb])
     .identity .en,
  -- Russian
  tpw (li "меня зовут") .identity .ru 2,
  tpw (cat [li "мо", optc 'ё', li " имя"]) .identity .ru 2,
  tpw (cat [li "мне ", .starC .dot, li " ", alts [li "год", li "года", li "лет"]])
      .identity .ru 2,
  tp (li "зови меня") .identity .ru,
  tp (cat [li "мой ", alts [li "телефон", li "email", li "адрес", li "день рождения"]])
     .identity .ru,
  -- Ukrainian
  tpw (li "мене звати") .identity .uk 2,
  tpw (cat [li "моє ім", .opt ap, li "я"]) .identity .uk 2,
  -- Belarusian
  tpw (li "мяне завуць") .identity .by_ 2,
  tpw (li "маё імя") .identity .by_ 2,
  -- Kazakh
  tpw (li "менің атым") .identity .kk 2,
  tp (cat [li "мені ", .repGe .dot 1, li " деп атаңыз"]) .identity .kk,
  tp (cat [li "менің ", alts [li "телефон", li "email", li "мекенжай"]]) .identity .kk,
  -- Czech
  tpw (cat [wb, li "jmenuji se", wb]) .identity .cz 2,
  tp (cat [wb, li "říkej mi", wb]) .identity .cz,
  -- French
  tpw (cat [wb, li "je m", .opt ap, li "appelle", wb]) .identity .fr 2,
  tpw (cat [wb, li "mon nom est", wb]) .identity .fr 2,
  tp (cat [wb, li "appelle", .cls (.oneOf ['-', ' ']), li "moi", wb]) .identity .fr,
  tp (cat [wb, li "mon ", alts [li "téléphone", li "email", li "adresse"], wb]) .identity .fr,
  -- Spanish
  tpw (cat [wb, li "me llamo", wb]) .identity .es 2,
  tpw (cat [wb, li "mi nombre es", wb]) .identity .es 2,
  tp (cat [wb, li "llámame", wb]) .identity .es,
  tp (cat [wb, li "mi ", alts [li "teléfono", li "email", li "dirección", li "cumpleaños"], wb])
     .identity .es,
  -- Italian
  tpw (cat [wb, li "mi chiamo", wb]) .identity .it 2,
  tpw (cat [wb, li "il mio nome è", wb]) .identity .it 2,
  tp (cat [wb, li "chiamami", wb]) .identity .it,
  tp (cat [wb, li "il mio ", alts [li "telefono", li "email", li "indirizzo"], wb]) .identity .it,
  -- Portuguese
  tpw (cat [wb, .opt (li "eu "), li "me chamo", wb]) .identity .pt 2,
  tpw (cat [wb, li "meu nome é", wb]) .identity .pt 2,
  tp (cat [wb, li "chama", .cls (.oneOf ['-', ' ']), li "me", wb]) .identity .pt,
  tp (cat [wb, li "meu ", alts [li "telefone", li "email", li "endereço"], wb]) .identity .pt,
  -- German
  tpw (cat [wb, li "ich heiße", wb]) .identity .de 2,
  tpw (cat [wb, li "mein name ist", wb]) .identity .de 2,
  tp (cat [wb, li "nenn mich", wb]) .identity .de,
  tp (cat [wb, li "mein", optc 'e', li " ",
        alts [li "telefon", li "email", li "adresse", li "geburtstag"], wb]) .identity .de]

/-- `FACT_TRIGGERS`: general facts about the user. -/
def FACT_TRIGGERS : List TriggerPattern := [
  -- English
  tp (cat [wb, li "i", alts [cat [.opt ap, li "m"], li " am"], li " ",
        .opt (alts [li "a ", li "an "]), .repGe .word 1, wb]) .fact .en,
  tp (cat [wb, li "i ", alts [li "work", li "live", li "study"], li " ",
        alts [li "at", li "in", li "for"], wb]) .fact .en,
  tp (cat [wb, li "i have ", .opt (alts [li "a ", li "an "]), .repGe .word 1, wb]) .fact .en,
  -- Russian
  tp (cat [li "я ", alts [li "работаю", li "живу", li "учусь"]]) .fact .ru,
  tp (cat [li "у меня ", alts [li "есть", li "имеется"]]) .fact .ru,
  tp (li "я по профессии") .fact .ru,
  tp (li "я из") .fact .ru,
  tp (cat [li "я ", alts [cat [li "был", optc 'а'], cat [li "жил", optc 'а'],
        cat [li "бывал", optc 'а'], cat [li "ездил", optc 'а'],
        cat [li "учил", alts [li "ся", li "ась"]],
        cat [li "родил", alts [li "ся", li "ась"]]]]) .fact .ru,
  tp (cat [li "я посещал", optc 'а']) .fact .ru,
  tp (cat [li "я закончил", optc 'а']) .fact .ru,
  -- Ukrainian
  tp (cat [li "я ", alts [li "працюю", li "живу", li "навчаюсь"]]) .fact .uk,
  tp (cat [li "у мене ", alts [li "є", li "маю"]]) .fact .uk,
  -- Belarusian
  tp (cat [li "я ", alts [li "працую", li "жыву", li "вучуся"]]) .fact .by_,
  tp (cat [li "у мяне ", alts [li "ёсць", li "маю"]]) .fact .by_,
  -- Kazakh
  tp (cat [li "мен ", alts [li "жұмыс істеймін", li "тұрамын", li "оқимын"]]) .fact .kk,
  tp (cat [li "менде ", alts [li "бар", li "жоқ"]]) .fact .kk,
  tp (cat [li "мен ", .repGe .dot 1, li " болып жұмыс істеймін"]) .fact .kk,
  -- Czech
  tp (cat [wb, li "pracuji ", alts [li "v", li "u", li "pro"], wb]) .fact .cz,
  tp (cat [wb, li "bydlím v", wb]) .fact .cz,
  -- French
  tp (cat [wb, li "je ", alts [li "travaille", li "habite", li "étudie"], wb]) .fact .fr,
  tp (cat [wb, li "j", .opt ap, li "ai ", alts [li "un", li "une"], wb]) .fact .fr,
  tp (cat [wb, li "je suis ", .opt (alts [li "un", li "une"]), wb]) .fact .fr,
  -- Spanish
  tp (cat [wb, .opt (li "yo "), alts [li "trabajo", li "vivo", li "estudio"], li " ",
        alts [li "en", li "para"], wb]) .fact .es,
  tp (cat [wb, li "tengo ", alts [li "un", li "una"], wb]) .fact .es,
  tp (cat [wb, li "soy ", .opt (alts [li "un", li "una"]), wb]) .fact .es,
  -- Italian
  tp (cat [wb, .opt (li "io "), alts [li "lavoro", li "vivo", li "studio"], li " ",
        alts [li "a", li "in", li "per"], wb]) .fact .it,
  tp (cat [wb, li "ho ", alts [li "un", li "una"], wb]) .fact .it,
  tp (cat [wb, li "sono ", .opt (alts [li "un", li "una"]), wb]) .fact .it,
  -- Portuguese
  tp (cat [wb, .opt (li "eu "), alts [li "trabalho", li "moro", li "estudo"], li " ",
        alts [li "em", li "para"], wb]) .fact .pt,
  tp (cat [wb, li "tenho ", alts [li "um", li "uma"], wb]) .fact .pt,
  tp (cat [wb, li "sou ", .opt (alts [li "um", li "uma"]), wb]) .fact .pt,
  -- German
  tp (cat [wb, li "ich ", alts [li "arbeite", li "wohne", li "studiere"], li " ",
        alts [li "bei", li "in", li "für"], wb]) .fact .de,
  tp (cat [wb, li "ich habe ", alts [li "ein", li "eine"], wb]) .fact .de,
  tp (cat [wb, li "ich bin ", .opt (alts [li "ein", li "eine"]), wb]) .fact .de]

/-- `IMPORTANCE_TRIGGERS`: markers of importance. -/
def IMPORTANCE_TRIGGERS : List TriggerPattern := [
  -- English
  tp (cat [wb, .opt (li "very "), li "important", wb]) .importance .en,
  tp (cat [wb, li "always", wb]) .importance .en,
  tp (cat [wb, li "never", wb]) .importance .en,
  tp (cat [wb, li "must ", alts [li "remember", li "know"], wb]) .importance .en,
  -- Russian
  tp (li "важно") .importance .ru,
  tp (li "всегда") .importance .ru,
  tp (li "никогда") .importance .ru,
  tp (li "обязательно") .importance .ru,
  tp (li "критично") .importance .ru,
  -- Ukrainian
  tp (li "важливо") .importance .uk,
  tp (li "завжди") .importance .uk,
  tp (li "ніколи") .importance .uk,
  tp (cat [li "обов", .opt ap, li "язково"]) .importance .uk,
  -- Belarusian
  tp (li "важна") .importance .by_,
  tp (li "заўсёды") .importance .by_,
  tp (li "ніколі") .importance .by_,
  -- Kazakh
  tp (li "маңызды") .importance .kk,
  tp (li "әрқашан") .importance .kk,
  tp (li "ешқашан") .importance .kk,
  tp (li "міндетті түрде") .importance .kk,
  -- Czech
  tp (cat [wb, li "důležité", wb]) .importance .cz,
  tp (cat [wb, li "vždy", wb]) .importance .cz,
  tp (cat [wb, li "nikdy", wb]) .importance .cz,
  -- French
  tp (cat [wb, .opt (li "très "), li "important", wb]) .importance .fr,
  tp (cat [wb, li "toujours", wb]) .importance .fr,
  tp (cat [wb, li "jamais", wb]) .importance .fr,
  tp (cat [wb, li "critique", wb]) .importance .fr,
  -- Spanish
  tp (cat [wb, .opt (li "muy "), li "importante", wb]) .importance .es,
  tp (cat [wb, li "siempre", wb]) .importance .es,
  tp (cat [wb, li "nunca", wb]) .importance .es,
  tp (cat [wb, li "crítico", wb]) .importance .es,
  -- Italian
  tp (cat [wb, .opt (li "molto "), li "importante", wb]) .importance .it,
  tp (cat [wb, li "sempre", wb]) .importance .it,
  tp (cat [wb, li "mai", wb]) .importance .it,
  tp (cat [wb, li "critico", wb]) .importance .it,
  -- Portuguese
  tp (cat [wb, .opt (li "muito "), li "importante", wb]) .importance .pt,
  tp (cat [wb, li "sempre", wb]) .importance .pt,
  tp (cat [wb, li "nunca", wb]) .importance .pt,
  tp (cat [wb, li "crítico", wb]) .importance .pt,
  -- German
  tp (cat [wb, .opt (li "sehr "), li "wichtig", wb]) .importance .de,
  tp (cat [wb, li "immer", wb]) .importance .de,
  tp (cat [wb, li "nie", .opt (li "mals"), wb]) .importance .de,
  tp (cat [wb, li "kritisch", wb]) .importance .de]

/-- `ALL_TRIGGERS`: the whole catalog, in declaration order. -/
def ALL_TRIGGERS : List TriggerPattern :=
  REMEMBER_TRIGGERS ++ PREFERENCE_TRIGGERS ++ DECISION_TRIGGERS ++
  IDENTITY_TRIGGERS ++ FACT_TRIGGERS ++ IMPORTANCE_TRIGGERS

/-- `LanguageFilter` of triggers.ts: the `"auto"` sentinel, a single code,
or an array of codes. -/
inductive LanguageFilter where
  | auto
  | single (c : LanguageCode)
  | multi (cs : List LanguageCode)
deriving Repr, DecidableEq

/-- `getFilteredTriggers`: restrict the catalog to the languages of the
filter, always including `common` patterns. -/
def getFilteredTriggers (languages : LanguageFilter) : List TriggerPattern :=
  match languages with
  | .auto => ALL_TRIGGERS
  | .single c =>
    let langSet : List LanguageCode := [c] ++ [.common]
    ALL_TRIGGERS.filter fun t => decide (t.lang ∈ langSet)
  | .multi cs =>
    let langSet : List LanguageCode := cs ++ [.common]
    ALL_TRIGGERS.filter fun t => decide (t.lang ∈ langSet)

/-- The result record of `matchTrigger`. -/
structure MatchResult where
  category : TriggerCategory
  weight : Nat
  lang : LanguageCode
deriving Repr, DecidableEq

/-- `trigger.weight ?? 1`. -/
def wt (t : TriggerPattern) : Nat := t.weight.getD 1

/-- The record `matchTrigger` builds from a firing trigger. -/
def mkResult (t : TriggerPattern) : MatchResult := ⟨t.category, wt t, t.lang⟩

/-- One iteration of the `matchTrigger` loop: replace the running best
match when the trigger fires with a strictly greater weight. -/
def step (text : List Char) (best : Option MatchResult) (t : TriggerPattern) :
    Option MatchResult :=
  if reTest t.pattern text then
    match best with
    | none => some (mkResult t)
    | some b => if wt t > b.weight then some (mkResult t) else some b
  else best

/-- `matchTrigger`: the highest-weight firing trigger of the filtered
catalog, or `none`. -/
def matchTrigger (text : List Char) (languages : LanguageFilter) : Option MatchResult :=
  (getFilteredTriggers languages).foldl (step text) none

/-- `getAllMatches`: every firing trigger of the filtered catalog. -/
def getAllMatches (text : List Char) (languages : LanguageFilter) : List TriggerPattern :=
  (getFilteredTriggers languages).filter fun t => reTest t.pattern text

/-! ## The capture gate and category mapper (index.ts) -/

/-- JS `String.prototype.length`: UTF-16 code units (astral code points
count twice). -/
def utf16Len (t : List Char) : Nat :=
  t.foldl (fun n c => n + (if 0x10000 ≤ c.toNat then 2 else 1)) 0

/-- Does `t` start with `pre`? (`String.prototype.startsWith`). -/
def startsWithL : List Char → List Char → Bool
  | [], _ => true
  | _ :: _, [] => false
  | a :: as, b :: bs => a == b && startsWithL as bs

/-- Does `t` contain `sub` as a contiguous substring?
(`String.prototype.includes`). -/
def containsSub (sub : List Char) : List Char → Bool
  | [] => startsWithL sub []
  | x :: ts => startsWithL sub (x :: ts) || containsSub sub ts

/-- A code point of the emoji regex `[\u{1F300}-\u{1F9FF}]`. -/
def isEmojiChar (c : Char) : Bool := 0x1F300 ≤ c.toNat && c.toNat ≤ 0x1F9FF

/-- The number of matches of the emoji regex with the `g` and `u` flags. -/
def emojiCount (t : List Char) : Nat := (t.filter isEmojiChar).length

/-- The `shouldCapture` closure of `createShouldCapture` (index.ts), as a
function of the already-cleaned text: the body after
`stripMessageMetadata` (an out-of-scope string utility) has been applied.
Length checks, the system-content check (`startsWith "<"` and includes
`"</"`), the markdown check (includes `"**"` and includes `"\n-"`), the
emoji-density check, then the trigger matcher. -/
def shouldCapture (cleanText : List Char) (language : LanguageFilter) : Bool :=
  if utf16Len cleanText < 10 then false
  else if 500 < utf16Len cleanText then false
  else if startsWithL ('<' :: []) cleanText && containsSub ('<' :: '/' :: []) cleanText then false
  else if containsSub ('*' :: '*' :: []) cleanText && containsSub ('\n' :: '-' :: []) cleanText then false
  else if 3 < emojiCount cleanText then false
  else (matchTrigger cleanText language).isSome

/-- `MemoryCategory` (config.ts `MEMORY_CATEGORIES`). -/
inductive MemoryCategory where
  | preference
  | fact
  | decision
  | entity
  | other
deriving Repr, DecidableEq

/-- `TRIGGER_TO_CATEGORY` (index.ts): the fixed total lookup table from
trigger categories to storage categories. -/
def TRIGGER_TO_CATEGORY : TriggerCategory → MemoryCategory
  | .remember => .other
  | .preference => .preference
  | .decision => .decision
  | .identity => .entity
  | .fact => .fact
  | .importance => .other

/-- The `detectCategory` closure of `createDetectCategory` (index.ts). -/
def detectCategory (text : List Char) (language : LanguageFilter) : MemoryCategory :=
  match matchTrigger text language with
  | some m => TRIGGER_TO_CATEGORY m.category
  | none => .other

/-! ## The language-configuration parser (config.ts) -/

/-- A JS runtime value as far as `parseLanguage` can observe it:
`undefined`, a string, an array, or anything else (numbers, objects,
booleans, `null` — all treated alike by its checks). -/
inductive JSValue where
  | undef
  | str (s : String)
  | arr (l : List JSValue)
  | other

/-- `VALID_LANGUAGES` (config.ts). -/
def VALID_LANGUAGES : List String :=
  ["en", "uk", "ru", "by", "kk", "cz", "fr", "es", "it", "pt", "de"]

/-- The `LanguageCode` denoted by a member of `VALID_LANGUAGES` (the
TypeScript cast `value as LanguageCode`; the fallback branch is never
reached for members of `VALID_LANGUAGES`). -/
def toCode (s : String) : LanguageCode :=
  if s = "en" then .en else if s = "uk" then .uk else if s = "ru" then .ru
  else if s = "by" then .by_ else if s = "kk" then .kk else if s = "cz" then .cz
  else if s = "fr" then .fr else if s = "es" then .es else if s = "it" then .it
  else if s = "pt" then .pt else if s = "de" then .de else .en

/-- The surviving codes of an array input:
`value.filter((v) => typeof v === "string" && VALID_LANGUAGES.includes(v))`. -/
def validCodes (l : List JSValue) : List LanguageCode :=
  l.filterMap fun v =>
    match v with
    | .str s => if VALID_LANGUAGES.contains s then some (toCode s) else none
    | _ => none

/-- `parseLanguage` (config.ts): total on every input value — unrecognized
codes are dropped and every non-conforming input falls back to `"auto"`. -/
def parseLanguage (value : JSValue) : LanguageFilter :=
  match value with
  | .undef => .auto
  | .str s =>
    if s = "auto" then .auto
    else if VALID_LANGUAGES.contains s then .single (toCode s)
    else .auto
  | .arr l =>
    let valid := validCodes l
    if 0 < valid.length then .multi valid else .auto
  | .other => .auto

/-! ## Characterisation of the `matchTrigger` loop

The loop keeps the first trigger seen at the running maximum weight
(strict `>` update), so its result is the first firing trigger attaining
the maximum weight of the firing list, in declaration order. -/

/-- The maximum weight of a list of triggers (`0` for the empty list). -/
def maxWt : List TriggerPattern → Nat
  | [] => 0
  | t :: L => max (wt t) (maxWt L)

/-- The first trigger of `L` attaining `maxWt L`. -/
def firstBest (L : List TriggerPattern) : Option TriggerPattern :=
  L.find? fun u => wt u == maxWt L

/-- Specification-side closed form of the `matchTrigger` loop. -/
def selectBest (L : List TriggerPattern) : Option MatchResult :=
  (firstBest L).map mkResult

/-- The loop body once the firing test has passed. -/
def stepF (best : Option MatchResult) (t : TriggerPattern) : Option MatchResult :=
  match best with
  | none => some (mkResult t)
  | some b => if wt t > b.weight then some (mkResult t) else some b

theorem step_eq (text : List Char) (best : Option MatchResult) (t : TriggerPattern) :
    step text best t = if reTest t.pattern text then stepF best t else best := by
  cases best <;> rfl

theorem foldl_step_filter (text : List Char) (l : List TriggerPattern)
    (acc : Option MatchResult) :
    l.foldl (step text) acc =
      (l.filter fun t => reTest t.pattern text).foldl stepF acc := by
  induction l generalizing acc with
  | nil => rfl
  | cons t l ih =>
    by_cases h : reTest t.pattern text
    · simp only [List.foldl_cons, List.filter_cons, h, if_pos, step_eq, ih]
    · simp only [List.foldl_cons, List.filter_cons, h, if_neg, step_eq, ih,
        Bool.false_eq_true, if_false]

/-- The accumulator view of the loop over an all-firing list. -/
def combine (b : MatchResult) : List TriggerPattern → MatchResult
  | [] => b
  | t :: L => if wt t > b.weight then combine (mkResult t) L else combine b L

theorem foldl_stepF_some (L : List TriggerPattern) (b : MatchResult) :
    L.foldl stepF (some b) = some (combine b L) := by
  induction L generalizing b with
  | nil => rfl
  | cons t L ih =>
    simp only [List.foldl_cons, stepF, combine]
    split <;> exact ih _

theorem weight_mkResult (t : TriggerPattern) : (mkResult t).weight = wt t := rfl

theorem maxWt_nil_lt {L : List TriggerPattern} {n : Nat} (h : n < maxWt L) : L ≠ [] := by
  intro he
  subst he
  exact absurd h (by simp [maxWt])

theorem firstBest_isSome (L : List TriggerPattern) (h : L ≠ []) :
    (L.find? fun u => wt u == maxWt L).isSome := by
  induction L with
  | nil => exact absurd rfl h
  | cons t L ih =>
    by_cases hm : maxWt L ≤ wt t
    · have hW : maxWt (t :: L) = wt t := by simp [maxWt, Nat.max_eq_left hm]
      have h3 : ((fun u => wt u == maxWt (t :: L)) t) = true := by
        simp [hW]
      rw [List.find?_cons_of_pos (p := fun u => wt u == maxWt (t :: L)) (a := t) L h3]
      rfl
    · have hlt : wt t < maxWt L := Nat.lt_of_not_le hm
      have hW : maxWt (t :: L) = maxWt L := by
        simp [maxWt, Nat.max_eq_right (Nat.le_of_lt hlt)]
      have hne : ((fun u => wt u == maxWt (t :: L)) t) = false := by
        simp only [hW, beq_eq_false_iff_ne, ne_eq]
        omega
      rw [List.find?_cons_of_neg (p := fun u => wt u == maxWt (t :: L)) (a := t) L (by simp [hne])]
      rw [hW]
      exact ih (maxWt_nil_lt hlt)

theorem combine_eq (L : List TriggerPattern) (b : MatchResult) :
    combine b L =
      if maxWt L ≤ b.weight then b
      else
        match L.find? (fun u => wt u == maxWt L) with
        | some t => mkResult t
        | none => b := by
  induction L generalizing b with
  | nil => simp [combine, maxWt]
  | cons t L ih =>
    have hW : maxWt (t :: L) = max (wt t) (maxWt L) := rfl
    by_cases hb : wt t > b.weight
    · rw [combine, if_pos hb, ih]
      by_cases hm : maxWt L ≤ wt t
      · have h1 : maxWt L ≤ (mkResult t).weight := by rw [weight_mkResult]; exact hm
        have h2 : ¬ maxWt (t :: L) ≤ b.weight := by
          rw [hW]
          exact Nat.not_le.mpr (Nat.lt_of_lt_of_le hb (Nat.le_max_left _ _))
        have h3 : ((fun u => wt u == maxWt (t :: L)) t) = true := by
          simp [hW, Nat.max_eq_left hm]
        rw [if_pos h1, if_neg h2, List.find?_cons_of_pos (p := fun u => wt u == maxWt (t :: L)) (a := t) L h3]
      · have hlt : wt t < maxWt L := Nat.lt_of_not_le hm
        have h1 : ¬ maxWt L ≤ (mkResult t).weight := by rw [weight_mkResult]; exact hm
        have h2 : ¬ maxWt (t :: L) ≤ b.weight := by
          rw [hW]
          refine Nat.not_le.mpr (Nat.lt_of_lt_of_le ?_ (Nat.le_max_right _ _))
          exact Nat.lt_trans hb hlt
        have hWm : maxWt (t :: L) = maxWt L := by
          rw [hW, Nat.max_eq_right (Nat.le_of_lt hlt)]
        have h3 : ((fun u => wt u == maxWt (t :: L)) t) = false := by
          simp only [hWm, beq_eq_false_iff_ne, ne_eq]
          omega
        rw [if_neg h1, if_neg h2, List.find?_cons_of_neg (p := fun u => wt u == maxWt (t :: L)) (a := t) L (by simp [h3]), hWm]
        obtain ⟨u, hu⟩ :=
          Option.isSome_iff_exists.mp (firstBest_isSome L (maxWt_nil_lt hlt))
        rw [hu]
    · rw [combine, if_neg hb, ih]
      have hba : wt t ≤ b.weight := Nat.le_of_not_lt hb
      by_cases hm : maxWt L ≤ b.weight
      · have h2 : maxWt (t :: L) ≤ b.weight := by
          rw [hW]
          exact Nat.max_le.mpr ⟨hba, hm⟩
        rw [if_pos hm, if_pos h2]
      · have hlt : b.weight < maxWt L := Nat.lt_of_not_le hm
        have h2 : ¬ maxWt (t :: L) ≤ b.weight := by
          rw [hW]
          exact Nat.not_le.mpr (Nat.lt_of_lt_of_le hlt (Nat.le_max_right _ _))
        have hWm : maxWt (t :: L) = maxWt L := by
          rw [hW, Nat.max_eq_right (Nat.le_of_lt (Nat.lt_of_le_of_lt hba hlt))]
        have h3 : ((fun u => wt u == maxWt (t :: L)) t) = false := by
          simp only [hWm, beq_eq_false_iff_ne, ne_eq]
          omega
        rw [if_neg hm, if_neg h2, List.find?_cons_of_neg (p := fun u => wt u == maxWt (t :: L)) (a := t) L (by simp [h3]), hWm]

/-- Master characterisation: `matchTrigger` returns the first firing
trigger (in catalog order) attaining the maximum weight of the firing
list. -/
theorem matchTrigger_eq_selectBest (text : List Char) (F : LanguageFilter) :
    matchTrigger text F = selectBest (getAllMatches text F) := by
  rw [matchTrigger, foldl_step_filter]
  show (getAllMatches text F).foldl stepF none = selectBest (getAllMatches text F)
  cases hL : getAllMatches text F with
  | nil => rfl
  | cons t L =>
    rw [List.foldl_cons]
    show L.foldl stepF (some (mkResult t)) = selectBest (t :: L)
    rw [foldl_stepF_some, combine_eq, selectBest, firstBest]
    by_cases hm : maxWt L ≤ (mkResult t).weight
    · have hma : maxWt L ≤ wt t := by rw [weight_mkResult] at hm; exact hm
      have hW : maxWt (t :: L) = wt t := by
        show max (wt t) (maxWt L) = wt t
        exact Nat.max_eq_left hma
      have h3 : ((fun u => wt u == maxWt (t :: L)) t) = true := by
        simp [hW]
      rw [if_pos hm, List.find?_cons_of_pos (p := fun u => wt u == maxWt (t :: L)) (a := t) L h3]
      rfl
    · have hlt : wt t < maxWt L := by
        rw [weight_mkResult] at hm
        exact Nat.lt_of_not_le hm
      have hW : maxWt (t :: L) = maxWt L := by
        show max (wt t) (maxWt L) = maxWt L
        exact Nat.max_eq_right (Nat.le_of_lt hlt)
      have h3 : ((fun u => wt u == maxWt (t :: L)) t) = false := by
        simp only [hW, beq_eq_false_iff_ne, ne_eq]
        omega
      rw [if_neg hm, List.find?_cons_of_neg (p := fun u => wt u == maxWt (t :: L)) (a := t) L (by simp [h3]), hW]
      have hs := firstBest_isSome L (maxWt_nil_lt hlt)
      obtain ⟨u, hu⟩ := Option.isSome_iff_exists.mp hs
      rw [hu]
      rfl

/-- `List Char` view of a string literal. -/
def strL (s : String) : List Char := s.toList

theorem matchTrigger_none_iff (text : List Char) (F : LanguageFilter) :
    matchTrigger text F = none ↔ getAllMatches text F = [] := by
  rw [matchTrigger_eq_selectBest]
  constructor
  · intro h
    cases hL : getAllMatches text F with
    | nil => rfl
    | cons t L =>
      rw [hL] at h
      have hs := firstBest_isSome (t :: L) (by simp)
      rw [selectBest] at h
      obtain ⟨u, hu⟩ := Option.isSome_iff_exists.mp hs
      rw [firstBest] at h
      rw [hu] at h
      simp at h
  · intro h
    rw [h]
    rfl

theorem matchTrigger_some_exists (text : List Char) (F : LanguageFilter)
    (r : MatchResult) (h : matchTrigger text F = some r) :
    ∃ t, firstBest (getAllMatches text F) = some t ∧ r = mkResult t := by
  rw [matchTrigger_eq_selectBest, selectBest] at h
  cases hf : firstBest (getAllMatches text F) with
  | none => rw [hf] at h; simp at h
  | some t =>
    rw [hf] at h
    simp at h
    exact ⟨t, rfl, h.symm⟩

theorem firstBest_mem {L : List TriggerPattern} {t : TriggerPattern}
    (h : firstBest L = some t) : t ∈ L :=
  List.mem_of_find?_eq_some h

theorem firstBest_weight {L : List TriggerPattern} {t : TriggerPattern}
    (h : firstBest L = some t) : wt t = maxWt L := by
  have := List.find?_some h
  simpa using this

theorem matchTrigger_some_weight (text : List Char) (F : LanguageFilter)
    (r : MatchResult) (h : matchTrigger text F = some r) :
    r.weight = maxWt (getAllMatches text F) := by
  obtain ⟨t, hf, hr⟩ := matchTrigger_some_exists text F r h
  rw [hr, weight_mkResult]
  exact firstBest_weight hf

theorem wt_le_maxWt {L : List TriggerPattern} {t : TriggerPattern} (h : t ∈ L) :
    wt t ≤ maxWt L := by
  induction L with
  | nil => cases h
  | cons u L ih =>
    rcases List.mem_cons.mp h with h | h
    · subst h
      exact Nat.le_max_left _ _
    · exact Nat.le_trans (ih h) (Nat.le_max_right _ _)

theorem maxWt_le_of_subset {A B : List TriggerPattern} (h : ∀ t ∈ A, t ∈ B) :
    maxWt A ≤ maxWt B := by
  induction A with
  | nil => exact Nat.zero_le _
  | cons t A ih =>
    show max (wt t) (maxWt A) ≤ maxWt B
    refine Nat.max_le.mpr ⟨wt_le_maxWt (h t (List.mem_cons_self t A)), ?_⟩
    exact ih fun u hu => h u (List.mem_cons_of_mem _ hu)

theorem mem_allTriggers_of_mem_filtered {t : TriggerPattern} {F : LanguageFilter}
    (h : t ∈ getFilteredTriggers F) : t ∈ ALL_TRIGGERS := by
  cases F with
  | auto => exact h
  | single c => exact (List.mem_filter.mp h).1
  | multi cs => exact (List.mem_filter.mp h).1

theorem mem_getAllMatches_auto {text : List Char} {F : LanguageFilter}
    {t : TriggerPattern} (h : t ∈ getAllMatches text F) :
    t ∈ getAllMatches text .auto := by
  rcases List.mem_filter.mp h with ⟨hmem, hfire⟩
  exact List.mem_filter.mpr ⟨mem_allTriggers_of_mem_filtered hmem, hfire⟩

theorem lang_mem_of_mem_filtered_single {t : TriggerPattern} {c : LanguageCode}
    (h : t ∈ getFilteredTriggers (.single c)) : t.lang = c ∨ t.lang = .common := by
  have := (List.mem_filter.mp h).2
  have hmem := of_decide_eq_true this
  simpa using hmem

theorem lang_mem_of_mem_filtered_multi {t : TriggerPattern} {cs : List LanguageCode}
    (h : t ∈ getFilteredTriggers (.multi cs)) : t.lang ∈ cs ∨ t.lang = .common := by
  have := (List.mem_filter.mp h).2
  have hmem := of_decide_eq_true this
  simpa using hmem

/-! ## The claims -/

/-- C1: for every input text and every language filter, `matchTrigger`
returns `none` exactly when no filtered rule's pattern matches the text;
otherwise it returns a result whose weight equals the maximum (default-1)
weight among all filtered rules whose pattern matches the text, and whose
category and language are those of the first such maximum-weight firing
rule in catalog declaration order. -/
theorem c1_matchTrigger_best (text : List Char) (F : LanguageFilter) :
    (matchTrigger text F = none ↔
      ∀ t ∈ getFilteredTriggers F, reTest t.pattern text = false) ∧
    ∀ r, matchTrigger text F = some r →
      r.weight = maxWt ((getFilteredTriggers F).filter fun t => reTest t.pattern text) ∧
      ∃ t, ((getFilteredTriggers F).filter fun t => reTest t.pattern text).find?
             (fun u => wt u ==
               maxWt ((getFilteredTriggers F).filter fun t => reTest t.pattern text)) =
             some t ∧
           r.category = t.category ∧ r.lang = t.lang ∧ r.weight = wt t := by
  constructor
  · rw [matchTrigger_none_iff]
    show getAllMatches text F = [] ↔ _
    unfold getAllMatches
    rw [List.filter_eq_nil_iff]
    constructor
    · intro h t ht
      have := h t ht
      revert this
      cases reTest t.pattern text <;> simp
    · intro h t ht
      rw [h t ht]
      simp
  · intro r hr
    obtain ⟨t, hf, hrt⟩ := matchTrigger_some_exists text F r hr
    have hw := matchTrigger_some_weight text F r hr
    refine ⟨hw, t, ?_, ?_, ?_, ?_⟩
    · exact hf
    · rw [hrt]; rfl
    · rw [hrt]; rfl
    · rw [hrt]; rfl

/-- C2: narrowing the language filter never yields a higher-weight match
than the `auto` sentinel: if `matchTrigger text F` returns a match of
weight `w` then `matchTrigger text auto` returns a match of weight at
least `w`. -/
theorem c2_auto_weight_monotone (text : List Char) (F : LanguageFilter)
    (r : MatchResult) (h : matchTrigger text F = some r) :
    ∃ s, matchTrigger text .auto = some s ∧ r.weight ≤ s.weight := by
  obtain ⟨t, hf, _⟩ := matchTrigger_some_exists text F r h
  have htm : t ∈ getAllMatches text F := firstBest_mem hf
  have hta : t ∈ getAllMatches text .auto := mem_getAllMatches_auto htm
  have hne : getAllMatches text .auto ≠ [] := by
    intro hnil
    rw [hnil] at hta
    cases hta
  have hsome := firstBest_isSome (getAllMatches text .auto) hne
  obtain ⟨u, hu⟩ := Option.isSome_iff_exists.mp hsome
  refine ⟨mkResult u, ?_, ?_⟩
  · rw [matchTrigger_eq_selectBest, selectBest]
    show Option.map mkResult (firstBest (getAllMatches text .auto)) = _
    rw [show firstBest (getAllMatches text .auto) = some u from hu]
    rfl
  · have h1 : r.weight = maxWt (getAllMatches text F) :=
      matchTrigger_some_weight text F r h
    have h2 : wt u = maxWt (getAllMatches text .auto) := firstBest_weight hu
    have h3 : maxWt (getAllMatches text F) ≤ maxWt (getAllMatches text .auto) :=
      maxWt_le_of_subset fun _ hv => mem_getAllMatches_auto hv
    rw [h1, weight_mkResult, h2]
    exact h3

set_option maxRecDepth 100000

/-- C3: common-tagged rules are evaluated under every language filter:
`matchTrigger "test@example.com" ru` and `matchTrigger "test@example.com" en`
both return the email rule's match — category `identity`, weight 2,
language `common`. -/
theorem c3_common_rules_fire :
    matchTrigger (strL "test@example.com") (.single .ru) =
      some ⟨.identity, 2, .common⟩ ∧
    matchTrigger (strL "test@example.com") (.single .en) =
      some ⟨.identity, 2, .common⟩ := by
  constructor
  · decide
  · decide

/-- C6: no rule of the catalog matches the empty string, and consequently
`matchTrigger "" auto` returns `none`. -/
theorem c6_empty_string_no_match :
    (ALL_TRIGGERS.all fun t => !reTest t.pattern []) = true ∧
    matchTrigger [] .auto = none := by
  constructor
  · decide
  · decide

/-- C7: under an explicit language filter (a single code or a list of
codes) `matchTrigger` only ever reports a language belonging to the filter
or the `common` tag; in particular `matchTrigger "remember this" [ru, uk]`
returns `none` (the English rule cannot fire under this filter). -/
theorem c7_filter_respects_language :
    (∀ (text : List Char) (c : LanguageCode) (r : MatchResult),
      matchTrigger text (.single c) = some r → r.lang = c ∨ r.lang = .common) ∧
    (∀ (text : List Char) (cs : List LanguageCode) (r : MatchResult),
      matchTrigger text (.multi cs) = some r → r.lang ∈ cs ∨ r.lang = .common) ∧
    matchTrigger (strL "remember this") (.multi [.ru, .uk]) = none := by
  refine ⟨?_, ?_, by decide⟩
  · intro text c r h
    obtain ⟨t, hf, hrt⟩ := matchTrigger_some_exists text (.single c) r h
    have hmem : t ∈ getAllMatches text (.single c) := firstBest_mem hf
    have hfil : t ∈ getFilteredTriggers (.single c) := (List.mem_filter.mp hmem).1
    have := lang_mem_of_mem_filtered_single hfil
    rw [hrt]
    exact this
  · intro text cs r h
    obtain ⟨t, hf, hrt⟩ := matchTrigger_some_exists text (.multi cs) r h
    have hmem : t ∈ getAllMatches text (.multi cs) := firstBest_mem hf
    have hfil : t ∈ getFilteredTriggers (.multi cs) := (List.mem_filter.mp hmem).1
    have := lang_mem_of_mem_filtered_multi hfil
    rw [hrt]
    exact this

/-- C8: the category mapper is total on the six trigger categories, mapping
`remember` and `importance` to `other`, `identity` to `entity` and the
rest to their namesakes; and `detectCategory` falls back to `other` when
the matcher finds nothing. -/
theorem c8_category_mapper :
    TRIGGER_TO_CATEGORY .remember = .other ∧
    TRIGGER_TO_CATEGORY .preference = .preference ∧
    TRIGGER_TO_CATEGORY .decision = .decision ∧
    TRIGGER_TO_CATEGORY .identity = .entity ∧
    TRIGGER_TO_CATEGORY .fact = .fact ∧
    TRIGGER_TO_CATEGORY .importance = .other ∧
    ∀ (text : List Char) (lang : LanguageFilter),
      matchTrigger text lang = none → detectCategory text lang = .other := by
  refine ⟨rfl, rfl, rfl, rfl, rfl, rfl, ?_⟩
  intro text lang h
  unfold detectCategory
  rw [h]

/-- C9: the language-configuration parser is a total function that never
reports an error: a recognized single code is returned as such, a list
keeps exactly its recognized codes (in order), and any input whose
surviving set is empty — an unrecognized single code, an empty or
all-invalid list, `undefined` or a non-string non-array value — yields the
`auto` sentinel. -/
theorem c9_parseLanguage_total :
    (∀ s : String, VALID_LANGUAGES.contains s = true →
      parseLanguage (.str s) = .single (toCode s)) ∧
    (∀ s : String, VALID_LANGUAGES.contains s = false →
      parseLanguage (.str s) = .auto) ∧
    (∀ l : List JSValue, validCodes l ≠ [] →
      parseLanguage (.arr l) = .multi (validCodes l)) ∧
    (∀ l : List JSValue, validCodes l = [] →
      parseLanguage (.arr l) = .auto) ∧
    parseLanguage .undef = .auto ∧
    parseLanguage .other = .auto := by
  refine ⟨?_, ?_, ?_, ?_, rfl, rfl⟩
  · intro s h
    have hne : ¬ s = "auto" := by
      intro he
      subst he
      simp [VALID_LANGUAGES] at h
    show (if s = "auto" then LanguageFilter.auto
      else if VALID_LANGUAGES.contains s = true then LanguageFilter.single (toCode s)
      else LanguageFilter.auto) = LanguageFilter.single (toCode s)
    rw [if_neg hne, if_pos h]
  · intro s h
    show (if s = "auto" then LanguageFilter.auto
      else if VALID_LANGUAGES.contains s = true then LanguageFilter.single (toCode s)
      else LanguageFilter.auto) = LanguageFilter.auto
    by_cases he : s = "auto"
    · rw [if_pos he]
    · rw [if_neg he, if_neg (by rw [h]; simp)]
  · intro l h
    have hp : 0 < (validCodes l).length := List.length_pos.mpr h
    show (if 0 < (validCodes l).length then LanguageFilter.multi (validCodes l)
      else LanguageFilter.auto) = LanguageFilter.multi (validCodes l)
    rw [if_pos hp]
  · intro l h
    show (if 0 < (validCodes l).length then LanguageFilter.multi (validCodes l)
      else LanguageFilter.auto) = LanguageFilter.auto
    simp [h]

/-- C10: `matchTrigger` returns `none` exactly when `getAllMatches` is
empty, and otherwise its result's weight is the maximum (default-1) weight
over `getAllMatches` and its category and language are those of the first
rule of `getAllMatches` attaining that maximum. -/
theorem c10_matchTrigger_getAllMatches (text : List Char) (F : LanguageFilter) :
    (matchTrigger text F = none ↔ getAllMatches text F = []) ∧
    ∀ r, matchTrigger text F = some r →
      r.weight = maxWt (getAllMatches text F) ∧
      ∃ t, firstBest (getAllMatches text F) = some t ∧ r = mkResult t := by
  refine ⟨matchTrigger_none_iff text F, ?_⟩
  intro r hr
  exact ⟨matchTrigger_some_weight text F r hr, matchTrigger_some_exists text F r hr⟩

/-- C4: the capture gate accepts exactly the cleaned texts whose UTF-16
length lies in `[10, 500]`, which pass the markup, markdown and emoji
rejection checks, and on which the trigger matcher fires; in particular a
cleaned text shorter than 10 or longer than 500 units is rejected
regardless of trigger content. -/
theorem c4_capture_gate (t : List Char) (lang : LanguageFilter) :
    shouldCapture t lang = true ↔
      10 ≤ utf16Len t ∧ utf16Len t ≤ 500 ∧
      (startsWithL ('<' :: []) t && containsSub ('<' :: '/' :: []) t) = false ∧
      (containsSub ('*' :: '*' :: []) t && containsSub ('\n' :: '-' :: []) t) = false ∧
      emojiCount t ≤ 3 ∧
      (matchTrigger t lang).isSome = true := by
  unfold shouldCapture
  by_cases h1 : utf16Len t < 10
  · rw [if_pos h1]
    simp only [Bool.false_eq_true, false_iff]
    rintro ⟨ha, -⟩
    omega
  rw [if_neg h1]
  by_cases h2 : 500 < utf16Len t
  · rw [if_pos h2]
    simp only [Bool.false_eq_true, false_iff]
    rintro ⟨-, hb, -⟩
    omega
  rw [if_neg h2]
  by_cases h3 : (startsWithL ('<' :: []) t && containsSub ('<' :: '/' :: []) t) = true
  · rw [if_pos h3]
    simp only [Bool.false_eq_true, false_iff]
    rintro ⟨-, -, hc, -⟩
    rw [h3] at hc
    cases hc
  rw [if_neg h3]
  by_cases h4 : (containsSub ('*' :: '*' :: []) t && containsSub ('\n' :: '-' :: []) t) = true
  · rw [if_pos h4]
    simp only [Bool.false_eq_true, false_iff]
    rintro ⟨-, -, -, hd, -⟩
    rw [h4] at hd
    cases hd
  rw [if_neg h4]
  by_cases h5 : 3 < emojiCount t
  · rw [if_pos h5]
    simp only [Bool.false_eq_true, false_iff]
    rintro ⟨-, -, -, -, he, -⟩
    omega
  rw [if_neg h5]
  simp only [Bool.not_eq_true] at h3 h4
  constructor
  · intro h
    exact ⟨by omega, by omega, h3, h4, by omega, h⟩
  · intro h
    exact h.2.2.2.2.2

/-- Modelled from the claim's words (spec §4.3 check 4), for comparison
with the code's orderless check: the text contains a bold-markdown marker
`**` with a line-leading dash `"\n-"` strictly after the marker's start. -/
def boldThenDash : List Char → Bool
  | [] => false
  | x :: ts =>
    (startsWithL ('*' :: '*' :: []) (x :: ts) && containsSub ('\n' :: '-' :: []) ts) ||
    boldThenDash ts

/-- C5 counterexample: on `"remember me\n- a **b**"` the line-leading dash
precedes the bold marker (the claim's ordered condition is false), every
other gate check passes and a trigger fires, so by the claim the gate
would accept — yet the code rejects, because its markdown check is
orderless. -/
theorem c5_counterexample :
    containsSub ('*' :: '*' :: []) (strL "remember me\n- a **b**") = true ∧
    containsSub ('\n' :: '-' :: []) (strL "remember me\n- a **b**") = true ∧
    boldThenDash (strL "remember me\n- a **b**") = false ∧
    10 ≤ utf16Len (strL "remember me\n- a **b**") ∧
    utf16Len (strL "remember me\n- a **b**") ≤ 500 ∧
    (startsWithL ('<' :: []) (strL "remember me\n- a **b**") &&
      containsSub ('<' :: '/' :: []) (strL "remember me\n- a **b**")) = false ∧
    emojiCount (strL "remember me\n- a **b**") ≤ 3 ∧
    (matchTrigger (strL "remember me\n- a **b**") .auto).isSome = true ∧
    shouldCapture (strL "remember me\n- a **b**") .auto = false := by
  decide

/-- C5 (amended): the capture gate rejects any candidate text containing
both a bold-markdown marker `**` and a line-leading dash `"\n-"` anywhere,
regardless of their relative order. -/
theorem c5_markdown_reject (t : List Char) (lang : LanguageFilter)
    (h1 : containsSub ('*' :: '*' :: []) t = true)
    (h2 : containsSub ('\n' :: '-' :: []) t = true) :
    shouldCapture t lang = false := by
  unfold shouldCapture
  split_ifs with g1 g2 g3 g4 g5
  any_goals rfl
  exfalso
  apply g4
  rw [h1, h2]
  rfl

/-- C5 witness: the amended rejection at a concrete input. -/
theorem c5_markdown_reject_witness :
    shouldCapture (strL "x**hello\n- y") .auto = false :=
  c5_markdown_reject (strL "x**hello\n- y") .auto (by decide) (by decide)

/-- C2 witness: the monotonicity instance at a concrete text and filter. -/
theorem c2_auto_weight_monotone_witness :
    ∃ s, matchTrigger (strL "remember this") .auto = some s ∧
      (MatchResult.mk .remember 2 .en).weight ≤ s.weight :=
  c2_auto_weight_monotone (strL "remember this") (.single .en)
    ⟨.remember, 2, .en⟩ (by decide)

end OpenClaw
